import Mathlib

/-!
Verification of `fan_driver.py` (SnipGhost/RPi-FanDriver): a shallow embedding
of the `FanDriverDaemon` control daemon and proofs about its control loop,
configuration loading, signal handling and shutdown behaviour.

Temperatures and thresholds are modelled as rationals (the Python code uses
floats; every concrete value appearing in the claims — 44, 45, 50, 55, 56,
55000/1000 — is exactly representable in binary floating point, and the one
division that occurs, by 1000, is exact at those values, so the rational
model agrees with the float semantics on everything proved here).
-/

namespace FanDriver

/-! ### Configuration loading (`FanDriverDaemon._load_config`, lines 41-65)

The Python code builds a `config` dict of defaults and then runs
`config.update(data)` with `data` the JSON object read from the config file.
We model the dict as a function from the (known) field names to values, and
the external JSON record as an association list of field/value pairs;
`dictUpdate` is Python's `dict.update` restricted to the known keys (keys not
among the seven known fields cannot affect the fields the claims are about). -/

/-- The seven configuration keys of the defaults dict (lines 51-59). -/
inductive Field where
  | log_level
  | log_file
  | log_format
  | temp_max
  | temp_min
  | sleep
  | control_pin
deriving DecidableEq

/-- JSON-ish values as they occur in the config dict: numbers, strings, null. -/
inductive Value where
  | intV (n : Int)
  | strV (s : String)
  | noneV
deriving DecidableEq

/-- The built-in defaults dict (lines 51-59):
`log_level: 'INFO', log_file: None, log_format: None, temp_max: 55,
temp_min: 45, sleep: 1, control_pin: 21`. -/
def defaults : Field → Value
  | .log_level => .strV "INFO"
  | .log_file => .noneV
  | .log_format => .noneV
  | .temp_max => .intV 55
  | .temp_min => .intV 45
  | .sleep => .intV 1
  | .control_pin => .intV 21

/-- Python `dict.update`: each key/value pair of `data` overwrites the entry
for that key, in order, so a later binding for the same key wins (matching
`json.load`, which also keeps the last binding for a duplicated key). -/
def dictUpdate : (Field → Value) → List (Field × Value) → (Field → Value)
  | cfg, [] => cfg
  | cfg, (k, v) :: rest => dictUpdate (fun f => if f = k then v else cfg f) rest

/-- Python truthiness test `not config['log_format']` (line 63): `None`, the
empty string and the number 0 are falsy. -/
def isFalsy : Value → Bool
  | .noneV => true
  | .strV s => s.isEmpty
  | .intV n => n == 0

/-- `' '.join(log_format)` for the default log format pieces (lines 43-49). -/
def defaultLogFormat : String :=
  "[PID: %(process)d] %(asctime)s [%(levelname)s] %(module)s:%(funcName)s:%(lineno)d %(message)s"

/-- `FanDriverDaemon._load_config` (lines 41-65): defaults, `update` with the
external record, then replace a falsy `log_format` by the default format. -/
def loadConfig (data : List (Field × Value)) : Field → Value :=
  let config := dictUpdate defaults data
  if isFalsy (config .log_format) then
    fun f => if f = .log_format then .strV defaultLogFormat else config f
  else
    config

/-- The last binding for key `f` in the record, if any (specification-side
helper used to state what `dict.update` does). -/
def lookupLast : List (Field × Value) → Field → Option Value
  | [], _ => none
  | (k, v) :: rest, f =>
    match lookupLast rest f with
    | some w => some w
    | none => if k = f then some v else none

/-! ### The control decision (`FanDriverDaemon.work`, lines 104-112)

`work` reads the temperature, and then:

    if (temp > self.config['temp_max'] and not self.pin_state) or \
            (temp < self.config['temp_min'] and self.pin_state):
        self.pin_state = not self.pin_state
        GPIO.output(pin, self.pin_state)

Note the order: `self.pin_state` is assigned BEFORE `GPIO.output` is called.
`workStepW` keeps that order observable by taking a flag saying whether the
`GPIO.output` call succeeds; on failure the already-updated `pin_state` is
recorded in the `raisedW` result. -/

/-- The control-relevant configuration fields, as used by `work`,
`_setup_pins` and `run`. -/
structure Config where
  temp_max : ℚ
  temp_min : ℚ
  sleep : ℚ
  control_pin : Nat
deriving DecidableEq

/-- The built-in default control configuration (lines 55-58). -/
def cfgDefault : Config :=
  { temp_max := 55, temp_min := 45, sleep := 1, control_pin := 21 }

/-- Result of one `work` body after the temperature has been read:
either it returns normally (with the stored `pin_state` and the
`GPIO.output` call performed, if any), or `GPIO.output` raised
(with the `pin_state` value left stored in memory at that moment). -/
inductive WorkRes where
  | ok (pin_state : Bool) (write : Option (Nat × Bool))
  | raisedW (pin_state : Bool)
deriving DecidableEq

/-- The stored `self.pin_state` after the `work` body, whether or not the
write raised. -/
def WorkRes.pinState : WorkRes → Bool
  | .ok s _ => s
  | .raisedW s => s

/-- The hysteresis body of `FanDriverDaemon.work` (lines 108-112), given the
already-read temperature `t` and whether the `GPIO.output` call would
succeed. `pin_state = true` is the fan engaged, `false` disengaged. -/
def workStepW (cfg : Config) (s : Bool) (t : ℚ) (writeOk : Bool) : WorkRes :=
  if (decide (t > cfg.temp_max) && !s) || (decide (t < cfg.temp_min) && s) then
    let new := !s
    if writeOk then .ok new (some (cfg.control_pin, new)) else .raisedW new
  else
    .ok s none

/-- Iterated `work` over a list of temperature readings (writes always
succeeding): returns the final `pin_state` and, for each reading in order,
the `GPIO.output` call it performed (if any). -/
def workList (cfg : Config) : Bool → List ℚ → Bool × List (Option (Nat × Bool))
  | s, [] => (s, [])
  | s, t :: ts =>
    match workStepW cfg s t true with
    | .ok s' w =>
      let p := workList cfg s' ts
      (p.1, w :: p.2)
    | .raisedW s' => (s', [])

/-! ### Daemon state, signal handlers, reload and the run loop
(lines 33-37, 67-88, 95-102, 114-133)

The mutable daemon state is `self.config`, `self.pin_state`, `self.running`
and the two `threading.Event` flags `end_event` and `reload_event`.
GPIO calls and log lines that the claims talk about are recorded as a trace
of `Event`s. Signals are delivered during the interruptible wait, which is
where the loop spends its time (the wait is the sole suspension point); the
handlers only set flags, exactly as `__signal_stop_handler` (lines 74-78) and
`__signal_reload_handler` (lines 80-83) do. -/

/-- Observable actions of one run: a temperature read attempt
(`_get_temp`, line 91-92), a `GPIO.output` call (line 111), a `GPIO.setup`
with its initial level (line 99), a `GPIO.cleanup` (line 102), the
`log.error` of `run`'s except block (line 130) and the shutting-down log of
its finally block (line 133). -/
inductive Event where
  | readTemp
  | output (pin : Nat) (level : Bool)
  | setup (pin : Nat) (level : Bool)
  | release
  | logError
  | shutdown
deriving DecidableEq

/-- The daemon's mutable state: current config, stored `pin_state`,
`self.running`, and the two `threading.Event` flags. -/
structure DState where
  config : Config
  pin_state : Bool
  running : Bool
  end_event : Bool
  reload_event : Bool
deriving DecidableEq

/-- `__signal_stop_handler` (lines 74-78): `self.running = False`;
`self.end_event.set()`. -/
def signalStopHandler (s : DState) : DState :=
  { s with running := false, end_event := true }

/-- `__signal_reload_handler` (lines 80-83): `self.reload_event.set()`
and nothing else. -/
def signalReloadHandler (s : DState) : DState :=
  { s with reload_event := true }

/-- `self.end_event.wait(timeout=...)` (line 122) returns before its timeout
exactly when `end_event` is set; `reload_event` is a separate
`threading.Event` that nothing waits on. -/
def waitEndsEarly (s : DState) : Bool :=
  s.end_event

/-- `_setup_pins` (lines 95-99): `GPIO.setup(control_pin, OUT,
initial = HIGH if self.pin_state else LOW)`. -/
def setupPins (s : DState) : Event :=
  .setup s.config.control_pin s.pin_state

/-- `_reload_config` (lines 67-72) with the configuration `c` that
`_load_config` returned: install `c` as `self.config` (no validation of any
kind is performed on it), then `_cleanup_pins()` and `_setup_pins()` — the
new pin is set up with initial level equal to the carried-over
`self.pin_state`. -/
def reloadConfig (s : DState) (c : Config) : DState × List Event :=
  let s' := { s with config := c }
  (s', [.release, setupPins s'])

/-- The reload check in `run` (lines 124-126): if `reload_event` is set,
call `_reload_config` and then clear the flag. `loaded` is what
`_load_config(self.config_file)` would produce: `none` means it raised
(unreadable or unparsable file), which propagates out of the loop. -/
def reloadBranch (s : DState) (loaded : Option Config) :
    Option (DState × List Event) :=
  if s.reload_event then
    match loaded with
    | none => none
    | some c =>
      let p := reloadConfig s c
      some ({ p.1 with reload_event := false }, p.2)
  else
    some (s, [])

/-- The environment's inputs to one loop iteration: the sensor reading
(`none` = `_get_temp` raises), whether a `GPIO.output` issued this iteration
would succeed, which signals arrive during this iteration's wait, and what
`_load_config` would return if a reload is processed. -/
structure IterIn where
  temp : Option ℚ
  writeOk : Bool
  stopSig : Bool
  reloadSig : Bool
  reloadCfg : Option Config
deriving DecidableEq

/-- Result of one pass through the `while` body: continue with a new state,
or an exception was raised (caught by `run`'s except block). -/
inductive StepRes where
  | cont (s : DState) (evs : List Event)
  | raised (s : DState) (evs : List Event)
deriving DecidableEq

/-- The wait and reload-check part of the loop body (lines 122-126): the
wait runs (signals arriving during it execute their handlers), then the
pending-reload check. -/
def afterWait (s : DState) (i : IterIn) (evs : List Event) : StepRes :=
  let s1 := if i.reloadSig then signalReloadHandler s else s
  let s2 := if i.stopSig then signalStopHandler s1 else s1
  match reloadBranch s2 i.reloadCfg with
  | none => .raised s2 evs
  | some p => .cont p.1 (evs ++ p.2)

/-- One full pass through the `while self.running` body (lines 118-126):
`work()` (temperature read, hysteresis decision, possible output), then the
interruptible wait and the reload check. -/
def iterStep (s : DState) (i : IterIn) : StepRes :=
  match i.temp with
  | none => .raised s [.readTemp]
  | some t =>
    match workStepW s.config s.pin_state t i.writeOk with
    | .raisedW ps => .raised { s with pin_state := ps } [.readTemp]
    | .ok ps w =>
      let evs := match w with
        | some pl => [Event.readTemp, Event.output pl.1 pl.2]
        | none => [Event.readTemp]
      afterWait { s with pin_state := ps } i evs

/-- How `run` ended: the `while` condition became false (clean stop), an
exception reached the except block (`errored`), or the supplied schedule of
iteration inputs ran out while the loop was still running (`fuelOut`, an
artifact of the finite model). -/
inductive Outcome where
  | stopped
  | errored
  | fuelOut
deriving DecidableEq

/-- The `try` part of `run` (lines 117-130): the `while self.running` loop,
plus the `log.error` of the except block when an iteration raises. -/
def runAux (s : DState) : List IterIn → List Event × Outcome
  | [] => if s.running then ([], .fuelOut) else ([], .stopped)
  | i :: rest =>
    if s.running then
      match iterStep s i with
      | .raised _ evs => (evs ++ [.logError], .errored)
      | .cont s' evs =>
        let p := runAux s' rest
        (evs ++ p.1, p.2)
    else
      ([], .stopped)

/-- `FanDriverDaemon.run` (lines 114-133): the loop, then the finally block,
which always runs `_cleanup_pins()` and logs the shutdown, on every exit
path. -/
def run (s : DState) (inputs : List IterIn) : List Event × Outcome :=
  let p := runAux s inputs
  (p.1 ++ [.release, .shutdown], p.2)

/-- The process exit status as a function of how the loop ended. `run`
catches `BaseException` (line 127), logs, and returns normally, and
`__main__` (lines 136-139) neither re-raises nor calls `sys.exit`, so the
interpreter exits with status 0 whether the loop stopped cleanly or died on
an unexpected error. -/
def processExitCode : Outcome → Nat
  | .stopped => 0
  | .errored => 0
  | .fuelOut => 0

/-- Number of `GPIO.cleanup` calls in a trace. -/
def countRelease (evs : List Event) : Nat :=
  evs.countP fun e => match e with | .release => true | _ => false

/-- Number of `GPIO.setup` calls in a trace. -/
def countSetup (evs : List Event) : Nat :=
  evs.countP fun e => match e with | .setup _ _ => true | _ => false

/-- Number of temperature read attempts in a trace. -/
def countRead (evs : List Event) : Nat :=
  evs.countP fun e => match e with | .readTemp => true | _ => false

/-- `FanDriverDaemon._get_temp` (lines 90-93): `float(file.read()) / 1000`,
modelled on the numeric value of the sensor file's content. -/
def getTemp (content : ℚ) : ℚ :=
  content / 1000

/-! ### Theorems -/

/-- Claim C1: for every configuration with `temp_min < temp_max` and every
temperature reading, one control step changes disengaged→engaged exactly
when `temp > temp_max` (so "only when" holds), engaged→disengaged exactly
when `temp < temp_min`, and any reading strictly inside the band leaves the
state unchanged and performs no `GPIO.output` call, whichever state it is
in. -/
theorem work_hysteresis (cfg : Config) (s : Bool) (t : ℚ)
    (h : cfg.temp_min < cfg.temp_max) :
    (workStepW cfg false t true =
      if t > cfg.temp_max then .ok true (some (cfg.control_pin, true))
      else .ok false none) ∧
    (workStepW cfg true t true =
      if t < cfg.temp_min then .ok false (some (cfg.control_pin, false))
      else .ok true none) ∧
    (cfg.temp_min < t → t < cfg.temp_max → workStepW cfg s t true = .ok s none) := by
  refine ⟨?_, ?_, ?_⟩
  · by_cases h1 : t > cfg.temp_max <;> simp [workStepW, h1]
  · by_cases h2 : t < cfg.temp_min <;> simp [workStepW, h2]
  · intro h1 h2
    have hmax : ¬ (cfg.temp_max < t) := not_lt.mpr h2.le
    have hmin : ¬ (t < cfg.temp_min) := not_lt.mpr h1.le
    cases s <;> simp [workStepW, hmax, hmin]

/-- Witness for C1 at the default thresholds (45, 55) and the in-band
reading 50 from the engaged state. -/
theorem work_hysteresis_witness :
    cfgDefault.temp_min < cfgDefault.temp_max ∧
    workStepW cfgDefault true 50 true = .ok true none :=
  ⟨by decide, (work_hysteresis cfgDefault true 50 (by decide)).2.2 (by decide) (by decide)⟩

/-- Claim C5 (Scenario A): with `temp_min = 45`, `temp_max = 55`, starting
disengaged, the reading sequence [50, 56, 50, 44, 50] produces `GPIO.output`
calls exactly at indices 1 (engaging) and 3 (disengaging) and no others, and
the final state is disengaged. -/
theorem scenario_a :
    workList cfgDefault false [50, 56, 50, 44, 50] =
      (false, [none, some (21, true), none, some (21, false), none]) := by
  decide

/-- What Python's `dict.update` computes, field by field: the updated dict
maps `f` to the last binding for `f` in the record, or to the base dict's
value when `f` is absent. -/
theorem dictUpdate_eq (data : List (Field × Value)) (cfg : Field → Value)
    (f : Field) :
    dictUpdate cfg data f = (lookupLast data f).getD (cfg f) := by
  induction data generalizing cfg with
  | nil => rfl
  | cons kv rest ih =>
    obtain ⟨k, v⟩ := kv
    show dictUpdate (fun f => if f = k then v else cfg f) rest f = _
    rw [ih]
    simp only [lookupLast]
    cases hl : lookupLast rest f with
    | some w => simp
    | none =>
      simp only
      by_cases hk : f = k
      · subst hk
        simp
      · rw [if_neg hk, if_neg fun h => hk h.symm]

/-- Claim C9: `_load_config` merges the external record over the built-in
defaults per field: every field other than `log_format` (which gets extra
falsy-replacement treatment) ends up at the record's (last) binding for it
when present, and at the default when absent; and the defaults are
`temp_max = 55`, `temp_min = 45`, `sleep = 1`, `control_pin = 21`,
`log_level = 'INFO'`, `log_file = None`. -/
theorem loadConfig_merge (data : List (Field × Value)) (f : Field)
    (h : f ≠ .log_format) :
    loadConfig data f = (lookupLast data f).getD (defaults f) ∧
    defaults .temp_max = .intV 55 ∧ defaults .temp_min = .intV 45 ∧
    defaults .sleep = .intV 1 ∧ defaults .control_pin = .intV 21 ∧
    defaults .log_level = .strV "INFO" ∧ defaults .log_file = .noneV := by
  refine ⟨?_, rfl, rfl, rfl, rfl, rfl, rfl⟩
  unfold loadConfig
  split
  · simp [h, dictUpdate_eq]
  · rw [dictUpdate_eq]

/-- Witness for C9: a record overriding `temp_max` to 60 yields 60 for
`temp_max`. -/
theorem loadConfig_merge_witness :
    Field.temp_max ≠ Field.log_format ∧
    loadConfig [(Field.temp_max, Value.intV 60)] Field.temp_max =
      (lookupLast [(Field.temp_max, Value.intV 60)] Field.temp_max).getD
        (defaults Field.temp_max) :=
  ⟨by decide,
    (loadConfig_merge [(Field.temp_max, Value.intV 60)] Field.temp_max (by decide)).1⟩

/-- Claim C10: the temperature read is the numeric content of the sensor
file divided by exactly 1000 (millidegrees Celsius); in particular a file
containing 55000 yields exactly 55, which does not exceed the default
`temp_max = 55` under the strict comparison, so the disengaged fan stays
disengaged with no `GPIO.output` call. -/
theorem getTemp_millidegrees :
    (∀ q : ℚ, getTemp (1000 * q) = q) ∧
    getTemp 55000 = 55 ∧
    workStepW cfgDefault false (getTemp 55000) true = .ok false none := by
  have h55 : getTemp 55000 = 55 := by norm_num [getTemp]
  refine ⟨fun q => ?_, h55, by rw [h55]; decide⟩
  show (1000 * q) / 1000 = q
  exact mul_div_cancel_left₀ q (by norm_num)

/-! Concrete states and inputs used by the scenario theorems below. -/

/-- A running daemon at the default configuration, fan disengaged, no
pending flags. -/
def s0 : DState :=
  { config := cfgDefault, pin_state := false, running := true,
    end_event := false, reload_event := false }

/-- A running daemon at the default configuration, fan engaged, with the
reload flag set. -/
def s0r : DState :=
  { config := cfgDefault, pin_state := true, running := true,
    end_event := false, reload_event := true }

/-- A semantically invalid proposed configuration:
`temp_min = 60 ≥ temp_max = 50` (Scenario B of the spec). -/
def badCfg : Config :=
  { temp_max := 50, temp_min := 60, sleep := 1, control_pin := 21 }

/-- A valid configuration whose `control_pin` (13) differs from the default
pin (21). -/
def cfgPin13 : Config :=
  { temp_max := 55, temp_min := 45, sleep := 1, control_pin := 13 }

/-- An iteration whose sensor read raises, with no signals arriving. -/
def iFail : IterIn :=
  { temp := none, writeOk := true, stopSig := false, reloadSig := false,
    reloadCfg := none }

/-- Claim C2 fails on the code: `_reload_config` performs no validation
whatsoever, so processing a reload whose proposed configuration has
`temp_min = 60 ≥ temp_max = 50` installs that configuration instead of
keeping the previous (last-known-good) one unchanged. -/
theorem invalid_reload_installed :
    (reloadBranch s0r (some badCfg)).map (fun p => p.1.config) = some badCfg ∧
    badCfg ≠ cfgDefault ∧ ¬ badCfg.temp_min < badCfg.temp_max := by
  decide

/-- Claim C2 (amended): a reload request with a semantically invalid
configuration (`temp_min ≥ temp_max` or non-positive poll interval) is not
rejected: no validation is performed, the invalid configuration replaces the
previous one (and the pin is re-initialized under it), and the reload flag
is cleared; only a configuration file that fails to load or parse raises,
which terminates the loop rather than keeping the old configuration
running. -/
theorem reload_accepts_invalid (s : DState) (c : Config)
    (hr : s.reload_event = true)
    (hbad : ¬ c.temp_min < c.temp_max ∨ c.sleep ≤ 0) :
    reloadBranch s (some c) =
      some ({ s with config := c, reload_event := false },
        [.release, .setup c.control_pin s.pin_state]) ∧
    reloadBranch s none = none := by
  constructor
  · simp [reloadBranch, hr, reloadConfig, setupPins]
  · simp [reloadBranch, hr]

/-- Witness for the amended C2: the invalid configuration with
`temp_min = 60 ≥ temp_max = 50` is installed and the flag cleared. -/
theorem reload_accepts_invalid_witness :
    s0r.reload_event = true ∧ ¬ badCfg.temp_min < badCfg.temp_max ∧
    reloadBranch s0r (some badCfg) =
      some ({ s0r with config := badCfg, reload_event := false },
        [.release, .setup badCfg.control_pin s0r.pin_state]) :=
  ⟨rfl, by decide,
    (reload_accepts_invalid s0r badCfg rfl (Or.inl (by decide))).1⟩

/-- Claim C3 fails on the code: `work` assigns `self.pin_state` BEFORE
calling `GPIO.output` (lines 110-111), so when the write fails the stored
`pin_state` has already been toggled: from disengaged at 60 °C with a
failing write, the stored state is engaged, not the unchanged disengaged
state the claim requires. -/
theorem pin_state_updated_before_write :
    workStepW cfgDefault false 60 false = .raisedW true ∧
    ¬ (workStepW cfgDefault false 60 false).pinState = false := by
  decide

/-- Claim C3 (amended): when the hysteresis decision differs from the
current state, the stored `pin_state` is toggled first and only then is the
actuator write attempted: on a successful write the new state is kept and
the write carries the new level, while on a failed write the stored
`pin_state` remains toggled (it is not rolled back) and the loop transitions
to STOPPING — the error is logged, the pin released, the shutdown
recorded. -/
theorem work_write_order (cfg : Config) (s : Bool) (t : ℚ)
    (hcond : ((decide (t > cfg.temp_max) && !s) ||
      (decide (t < cfg.temp_min) && s)) = true) :
    workStepW cfg s t true = .ok (!s) (some (cfg.control_pin, !s)) ∧
    workStepW cfg s t false = .raisedW (!s) ∧
    (∀ ds : DState, ∀ i : IterIn, ∀ rest : List IterIn,
      ds.config = cfg → ds.pin_state = s → ds.running = true →
      i.temp = some t → i.writeOk = false →
      run ds (i :: rest) =
        ([.readTemp, .logError, .release, .shutdown], .errored)) := by
  refine ⟨by simp [workStepW, hcond], by simp [workStepW, hcond], ?_⟩
  intro ds i rest hc hp hr ht hw
  subst hc
  subst hp
  simp [run, runAux, hr, iterStep, ht, hw, workStepW, hcond]

/-- Witness for the amended C3: engaging at 60 °C from the default
disengaged state, with a succeeding write. -/
theorem work_write_order_witness :
    ((decide ((60:ℚ) > cfgDefault.temp_max) && !false) ||
      (decide ((60:ℚ) < cfgDefault.temp_min) && false)) = true ∧
    workStepW cfgDefault false 60 true = .ok true (some (21, true)) :=
  ⟨by decide, (work_write_order cfgDefault false 60 (by decide)).1⟩

/-- Claim C4 fails on the code: the reload-equivalent signal handler
(`__signal_reload_handler`, lines 80-83) only sets `reload_event`; it does
not set `end_event`, the only event `run`'s wait (line 122) waits on, so a
reload request does not wake the waiting loop and is only acted on once the
full poll interval has elapsed. -/
theorem reload_does_not_wake_wait :
    (signalReloadHandler s0).reload_event = true ∧
    waitEndsEarly (signalReloadHandler s0) = false := by
  decide

/-- Claim C4 (amended): the interruptible wait ends early exactly when a
stop request arrives: stop-equivalent signals set the stop flag and set the
wait's event, while a reload-equivalent signal sets only the reload flag and
leaves the wait's event untouched, so a pending reload is acted on only
after the current wait finishes — at its timeout, or earlier only when a
stop also wakes it. -/
theorem wait_wakes_only_on_stop (s : DState) :
    (signalReloadHandler s).reload_event = true ∧
    (signalReloadHandler s).end_event = s.end_event ∧
    (signalReloadHandler s).running = s.running ∧
    waitEndsEarly (signalReloadHandler s) = waitEndsEarly s ∧
    (signalStopHandler s).running = false ∧
    waitEndsEarly (signalStopHandler s) = true := by
  simp [signalReloadHandler, signalStopHandler, waitEndsEarly]

/-- Claim C6 fails on the code: a run that dies on an unexpected failure (a
failed sensor read) still yields exit status 0, because `run` catches
`BaseException`, logs and returns normally, and `__main__` neither re-raises
nor sets an exit code — the failure outcome is not distinguished from a
clean stop. -/
theorem exit_code_zero_on_error :
    (run s0 [iFail]).2 = .errored ∧
    processExitCode (run s0 [iFail]).2 = 0 ∧
    processExitCode .stopped = 0 := by
  decide

/-- Claim C6 (amended): the process exit status does not distinguish
outcomes: whatever way the loop ends — clean stop request or unexpected
failure — `run` returns normally and the process exits with the
zero-equivalent status. -/
theorem exit_code_always_zero (s : DState) (inputs : List IterIn) :
    processExitCode (run s inputs).2 = 0 ∧
    processExitCode .stopped = 0 ∧ processExitCode .errored = 0 := by
  refine ⟨?_, rfl, rfl⟩
  cases h : (run s inputs).2 <;> rfl

/-- Claim C7: a reload with a valid configuration whose `control_pin`
differs from the current one releases the old pin exactly once
(`GPIO.cleanup`) and initializes the new pin exactly once, and the physical
initial level written at re-initialization equals the in-memory `pin_state`
carried over unchanged from before the reload. -/
theorem reload_pin_roundtrip (s : DState) (c : Config)
    (hv : c.temp_min < c.temp_max)
    (hpin : c.control_pin ≠ s.config.control_pin) :
    countRelease (reloadConfig s c).2 = 1 ∧
    countSetup (reloadConfig s c).2 = 1 ∧
    (reloadConfig s c).2 = [.release, .setup c.control_pin s.pin_state] ∧
    (reloadConfig s c).1.pin_state = s.pin_state ∧
    (reloadConfig s c).1.config = c := by
  refine ⟨rfl, rfl, rfl, rfl, rfl⟩

/-- Witness for C7: reloading from the default configuration (pin 21) to
the same thresholds on pin 13, fan disengaged. -/
theorem reload_pin_roundtrip_witness :
    cfgPin13.temp_min < cfgPin13.temp_max ∧
    cfgPin13.control_pin ≠ s0.config.control_pin ∧
    (reloadConfig s0 cfgPin13).2 = [.release, .setup 13 false] :=
  ⟨by decide, by decide,
    (reload_pin_roundtrip s0 cfgPin13 (by decide) (by decide)).2.2.1⟩

/-- Claim C8 (Scenario D): if the temperature read fails in an iteration of
a running loop, the loop transitions to STOPPING regardless of any further
scheduled inputs: the error is logged, the pin is released exactly once, the
shutdown is recorded, and no further temperature reads are attempted — the
whole trace holds exactly one read attempt. -/
theorem sensor_failure_stops (s : DState) (i : IterIn) (rest : List IterIn)
    (hr : s.running = true) (ht : i.temp = none) :
    run s (i :: rest) = ([.readTemp, .logError, .release, .shutdown], .errored) ∧
    countRelease (run s (i :: rest)).1 = 1 ∧
    countRead (run s (i :: rest)).1 = 1 := by
  have h1 : run s (i :: rest) =
      ([.readTemp, .logError, .release, .shutdown], .errored) := by
    simp [run, runAux, hr, iterStep, ht]
  exact ⟨h1, by rw [h1]; decide, by rw [h1]; decide⟩

/-- Witness for C8: the default running state with a failing sensor read
and no further scheduled iterations. -/
theorem sensor_failure_stops_witness :
    s0.running = true ∧ iFail.temp = none ∧
    run s0 [iFail] = ([.readTemp, .logError, .release, .shutdown], .errored) :=
  ⟨rfl, rfl, (sensor_failure_stops s0 iFail [] rfl rfl).1⟩

end FanDriver
